import Mathlib

/-!
Shallow embedding of the core of django-webpack-loader:
`webpack_loader/config.py` and `webpack_loader/loader.py`.

Modelling conventions:
  * Python dicts with string keys become association lists (`List (String × _)`)
    looked up with `lookupA` (first match wins, like a dict).
  * The process-wide class attribute `WebpackLoader._assets` and the other
    ambient effects (file reads, `time.time()` calls) become an explicit
    `LoaderState` threaded through every call.
  * Exceptions become `Except Err`, paired with the state at raise time.
  * Python's recursion limit is modelled by a `fuel : Nat` parameter: every
    nested `get_assets` call consumes one unit, and exhaustion returns
    `Err.recursionError`, the analogue of Python's `RecursionError`.
  * The filesystem is a function `reads : Nat → FileContent` giving the
    content observed by the n-th `open`+`json.load` of the stats file;
    `time.time()` is a function `timeFn : Nat → Rat` indexed by a call
    counter; the external `staticfiles_storage.url` capability and the
    compiled-regex matchers (`re.compile(p).match`) are opaque functions.
  * The class attribute `WebpackLoader._assets` is declared by a bare
    annotation (loader.py:67) and never assigned anywhere in the source, so
    the cache is modelled as an `Option`: `none` — the only state the
    program can reach — makes `global_cache()` raise `AttributeError`.
-/

set_option linter.unusedVariables false

/-- One chunk asset record of the stats manifest (`WebpackBundleAsset` in
loader.py): a logical `name`, an optional explicit `publicPath`, and the
lazily memoized resolved URL the source stores on the record itself. -/
structure Asset where
  name : String
  publicPath : Option String := none
  url : Option String := none
deriving Repr, DecidableEq

/-- Parsed stats manifest (`WebpackBundleContents` in loader.py): a `status`
string, the optional `error` and `message` fields of an error manifest, and
the `chunks` (bundle name → ordered chunk names) and `assets` (chunk name →
asset record) maps of a compiled manifest.  A missing map is modelled as the
empty map: both make every lookup fail with the same `KeyError`. -/
structure Manifest where
  status : String
  error : Option String := none
  message : Option String := none
  chunks : List (String × List String) := []
  assets : List (String × Asset) := []
deriving Repr, DecidableEq

/-- Outcomes a call can raise.  The first five are the exception classes the
loader raises (`WebpackError`, `WebpackLoaderBadStatsError`,
`WebpackLoaderTimeoutError`, `WebpackBundleLookupError` from
webpack_loader/exceptions.py, and the built-in `IOError` re-raised by
`load_assets`).  `jsonDecode` models an uncaught `json.JSONDecodeError`
escaping `json.load` (a `ValueError`, hence not caught by `except IOError`).
`recursionError` models Python's `RecursionError` once the recursion limit
(the fuel) is exhausted.  `attributeError` models the `AttributeError`
raised by `global_cache()` when it reads the never-assigned class attribute
`WebpackLoader._assets`.  `nonTermination` marks exhaustion of the
poll-loop fuel, i.e. an infinite `while` loop. -/
inductive Err where
  | webpackError (msg : String)
  | badStats (msg : String)
  | timeoutError (msg : String)
  | bundleLookup (msg : String)
  | ioError (msg : String)
  | jsonDecode
  | recursionError
  | attributeError
  | nonTermination
deriving Repr, DecidableEq

/-- What the n-th read of the stats file observes: an unreadable file (the
`IOError` branch, with the underlying cause text), structurally invalid
JSON, or a successfully parsed manifest. -/
inductive FileContent where
  | unreadable (cause : String)
  | invalidJson
  | json (m : Manifest)
deriving Repr, DecidableEq

/-- Merged configuration record (`WebpackConfig` in config.py).  `ignores`
holds the compiled ignore matchers; a compiled regex `re.compile(p)` is
modelled by its `.match` behaviour, an opaque `String → Bool`. -/
structure WebpackConfig where
  CACHE : Bool
  BUNDLE_DIR_NAME : String
  STATS_FILE : String
  POLL_INTERVAL : Rat
  TIMEOUT : Option Rat
  IGNORE : List String
  LOADER_CLASS : String
  ignores : List (String → Bool)

/-- Caller-supplied override record: a Python dict that may provide any
subset of the configuration keys (`none` = key absent). -/
structure ConfigOverride where
  CACHE : Option Bool := none
  BUNDLE_DIR_NAME : Option String := none
  STATS_FILE : Option String := none
  POLL_INTERVAL : Option Rat := none
  TIMEOUT : Option (Option Rat) := none
  IGNORE : Option (List String) := none
  LOADER_CLASS : Option String := none
  ignores : Option (List (String → Bool)) := none

/-- `DEFAULT_CONFIG` of config.py; `CACHE` is `not settings.DEBUG`. -/
def DEFAULT_CONFIG (debug : Bool) : WebpackConfig :=
  { CACHE := !debug
    BUNDLE_DIR_NAME := "webpack_bundles/"
    STATS_FILE := "webpack-stats.json"
    POLL_INTERVAL := (1 : Rat) / 10
    TIMEOUT := none
    IGNORE := [".+\\.hot-update.js", ".+\\.map"]
    LOADER_CLASS := "webpack_loader.loader.WebpackLoader"
    ignores := [] }

/-- `process_config` of config.py: `{**DEFAULT_CONFIG, **cfg, 'ignores':
[re.compile(pattern) for pattern in cfg.get('IGNORE', DEFAULT_CONFIG['IGNORE'])]}`.
The dict merge keeps an override value exactly when the key is present,
otherwise the default; the trailing explicit `'ignores'` entry wins over
both, so the compiled matcher list always comes from whichever `IGNORE`
list won the merge.  `compileRe` models `re.compile` (pattern ↦ matcher). -/
def process_config (debug : Bool) (compileRe : String → (String → Bool))
    (cfg : ConfigOverride) : WebpackConfig :=
  { CACHE := cfg.CACHE.getD (DEFAULT_CONFIG debug).CACHE
    BUNDLE_DIR_NAME := cfg.BUNDLE_DIR_NAME.getD (DEFAULT_CONFIG debug).BUNDLE_DIR_NAME
    STATS_FILE := cfg.STATS_FILE.getD (DEFAULT_CONFIG debug).STATS_FILE
    POLL_INTERVAL := cfg.POLL_INTERVAL.getD (DEFAULT_CONFIG debug).POLL_INTERVAL
    TIMEOUT := cfg.TIMEOUT.getD (DEFAULT_CONFIG debug).TIMEOUT
    IGNORE := cfg.IGNORE.getD (DEFAULT_CONFIG debug).IGNORE
    LOADER_CLASS := cfg.LOADER_CLASS.getD (DEFAULT_CONFIG debug).LOADER_CLASS
    ignores := (cfg.IGNORE.getD (DEFAULT_CONFIG debug).IGNORE).map compileRe }

/-- First-match association-list lookup, the behaviour of a Python dict
subscript restricted to the keys actually stored. -/
def lookupA {α : Type} : List (String × α) → String → Option α
  | [], _ => none
  | (k, v) :: t, key => if k = key then some v else lookupA t key

/-- Dict update `d[k] = v`: replaces the first binding of `k`, appends a new
binding when absent (Python dict insertion order). -/
def updateAssoc {α : Type} : List (String × α) → String → α → List (String × α)
  | [], k, v => [(k, v)]
  | (k', v') :: t, k, v => if k' = k then (k, v) :: t else (k', v') :: updateAssoc t k v

/-- Process-wide mutable state.  `cache` is the class attribute
`WebpackLoader._assets` as the process sees it: `none` while the attribute
is unassigned — and loader.py:67 is a bare annotation that never creates
it, with no assignment anywhere else, so from process start it stays `none`
and `global_cache()` raises `AttributeError` — or `some d` for a bound dict
`d` (configuration name → manifest).  `readCount` numbers the stats-file
reads and `timeCalls` the `time.time()` calls. -/
structure LoaderState where
  cache : Option (List (String × Manifest))
  readCount : Nat
  timeCalls : Nat
deriving Repr, DecidableEq

/-- `WebpackLoader.load_assets`: open and parse the stats file.  An
`IOError` is re-raised with a message naming the path and the cause; a JSON
parse failure (`json.JSONDecodeError`, a `ValueError`) is not caught by the
`except IOError` clause and escapes as-is. -/
def load_assets (cfg : WebpackConfig) (reads : Nat → FileContent)
    (s : LoaderState) : Except Err Manifest × LoaderState :=
  match reads s.readCount with
  | .unreadable cause =>
      (.error (.ioError ("Error reading " ++ cfg.STATS_FILE ++ ": " ++ cause ++
        ". Are you sure webpack has generated the file and the path is correct?")),
       { s with readCount := s.readCount + 1 })
  | .invalidJson => (.error .jsonDecode, { s with readCount := s.readCount + 1 })
  | .json m => (.ok m, { s with readCount := s.readCount + 1 })

/-- Body of `WebpackLoader.raise_error_from_stats` after its own
`get_assets()` call returned a manifest: classify the status and build the
`WebpackError` message, or return `none` (the method's bare `return`) for
any other status. -/
def raise_error_from_stats_result (m : Manifest) : Option Err :=
  if m.status = "initialization" ∨ m.status = "compile" then
    some (.webpackError ("Error in webpack '" ++
      m.error.getD "Webpack has not finished compiling" ++ "': " ++
      "Webpack is either not running or still compiling the bundle"))
  else if m.status = "error" then
    some (.webpackError ("Error in webpack '" ++ m.error.getD "Unknown Error" ++
      "': " ++ m.message.getD ""))
  else none

/-- Tail of `raise_error_from_stats` applied to the outcome of its
`self.get_assets()` call: a raise inside that call propagates, otherwise
the classification above decides what is raised. -/
def raise_check (res : Except Err Manifest × LoaderState) : Option Err × LoaderState :=
  match res with
  | (.error e, s) => (some e, s)
  | (.ok m, s) => (raise_error_from_stats_result m, s)

/-- Cache-or-load part of `WebpackLoader.get_assets` (before the `compiled`
status check).  With `CACHE` on the method first calls `global_cache()`,
i.e. reads the class attribute `cls._assets` — which the source never
assigns (loader.py:67 is a bare annotation creating no attribute) — so when
the attribute is absent the access raises `AttributeError` before any
lookup or store.  Were the attribute a bound dict: a miss or
`replace_cache=True` runs `load_assets` and stores the result under the
configuration name (the dict untouched when the load raises), a hit returns
the cached manifest.  With `CACHE` off every call runs `load_assets`
directly. -/
def fetch_assets (cfg : WebpackConfig) (name : String)
    (reads : Nat → FileContent) (replace_cache : Bool) (s : LoaderState) :
    Except Err Manifest × LoaderState :=
  if cfg.CACHE then
    match s.cache with
    | none => (.error .attributeError, s)
    | some d =>
      match lookupA d name, replace_cache with
      | some m, false => (.ok m, s)
      | _, _ =>
        match load_assets cfg reads s with
        | (.ok m, s1) => (.ok m, { s1 with cache := some (updateAssoc d name m) })
        | (.error e, s1) => (.error e, s1)
  else load_assets cfg reads s

/-- `WebpackLoader.get_assets`: the cache-or-load step above, then, with
`compiled=True` (the Python default), the status check.  A status other
than `done` first runs `raise_error_from_stats()` — which itself calls
`self.get_assets()` with `compiled=True`, hence the fuel-consuming nested
call here — and only if that classification declines to raise does the
`WebpackLoaderBadStatsError` naming `self.name` and the status fire. -/
def get_assets : Nat → WebpackConfig → String → (Nat → FileContent) → Bool → Bool →
    LoaderState → Except Err Manifest × LoaderState
  | 0, _, _, _, _, _, s => (.error .recursionError, s)
  | Nat.succ fuel, cfg, name, reads, compiled, replace_cache, s =>
    match fetch_assets cfg name reads replace_cache s with
    | (.error e, s1) => (.error e, s1)
    | (.ok assets, s1) =>
      if compiled then
        if assets.status ≠ "done" then
          match raise_check (get_assets fuel cfg name reads true false s1) with
          | (some e, s2) => (.error e, s2)
          | (none, s2) =>
            (.error (.badStats ("Tried to access webpack stats \"" ++ name ++
              "\", but it has status \"" ++ assets.status ++ "\"")), s2)
        else (.ok assets, s1)
      else (.ok assets, s1)

/-- `WebpackLoader.raise_error_from_stats`: fetch via `get_assets()`
(Python defaults `compiled=True`, `replace_cache=False`) and classify. -/
def raise_error_from_stats (fuel : Nat) (cfg : WebpackConfig) (name : String)
    (reads : Nat → FileContent) (s : LoaderState) : Option Err × LoaderState :=
  raise_check (get_assets fuel cfg name reads true false s)

/-- `WebpackLoader.get_chunk_from_name`: re-fetch the stats via
`get_assets(compiled=True)` and look the chunk up in the `assets` map,
turning the `KeyError` of a missing name into `WebpackBundleLookupError`. -/
def get_chunk_from_name (fuel : Nat) (cfg : WebpackConfig) (name : String)
    (reads : Nat → FileContent) (chunk_name : String) (s : LoaderState) :
    Except Err Asset × LoaderState :=
  match get_assets fuel cfg name reads true false s with
  | (.error e, s1) => (.error e, s1)
  | (.ok m, s1) =>
    match lookupA m.assets chunk_name with
    | some a => (.ok a, s1)
    | none =>
      (.error (.bundleLookup ("The asset name '" ++ chunk_name ++
        "' could not be found.")), s1)

/-- `WebpackLoader.get_chunk_url`: an explicit `publicPath` is returned
unchanged, otherwise the external static-URL capability is applied to
`BUNDLE_DIR_NAME + chunk name`. -/
def get_chunk_url (cfg : WebpackConfig) (staticUrl : String → String)
    (chunk : Asset) : String :=
  match chunk.publicPath with
  | some p => p
  | none => staticUrl (cfg.BUNDLE_DIR_NAME ++ chunk.name)

/-- The in-place mutation `chunk['__url__'] = url`.  The chunk object
returned by `get_chunk_from_name` aliases the manifest held in the global
cache when `CACHE` is on, so the write lands in the cached manifest; with
`CACHE` off the manifest was a fresh transient read and the write is lost
once the local record goes out of scope.  `setAssetUrl` is the write as
seen from the owning manifest: the asset record stored under `chunk_name`
gains the memoized URL. -/
def setAssetUrl (m : Manifest) (chunk_name url : String) : Manifest :=
  { m with assets := m.assets.map (fun q =>
      if q.1 = chunk_name then (q.1, { q.2 with url := some url }) else q) }

/-- The same write as seen from the process-wide state: with `CACHE` on it
lands in the cached manifest of this configuration name (only possible in
states where the cache attribute exists at all), with `CACHE` off the
target was transient and the state is unchanged. -/
def setUrl (cfg : WebpackConfig) (name chunk_name url : String)
    (s : LoaderState) : LoaderState :=
  if cfg.CACHE then
    { s with cache := s.cache.map (fun d => d.map (fun p =>
        if p.1 = name then (p.1, setAssetUrl p.2 chunk_name url) else p)) }
  else s

/-- The `for chunk_name in assets['chunks'][bundle_name]` loop of
`get_bundle`, collected eagerly: fetch each chunk, memoize a URL onto it
when `__url__` is unset and no ignore matcher matches the chunk name, and
yield exactly the chunks that carry a URL afterwards, in order. -/
def chunkLoop (fuel : Nat) (cfg : WebpackConfig) (name : String)
    (reads : Nat → FileContent) (staticUrl : String → String) :
    List String → LoaderState → Except Err (List Asset) × LoaderState
  | [], s => (.ok [], s)
  | chunk_name :: rest, s =>
    match get_chunk_from_name fuel cfg name reads chunk_name s with
    | (.error e, s1) => (.error e, s1)
    | (.ok chunk, s1) =>
      let step : Asset × LoaderState :=
        if chunk.url.isNone ∧ ¬ cfg.ignores.any (fun rgx => rgx chunk_name) then
          let u := get_chunk_url cfg staticUrl chunk
          ({ chunk with url := some u }, setUrl cfg name chunk_name u s1)
        else (chunk, s1)
      match chunkLoop fuel cfg name reads staticUrl rest step.2 with
      | (.error e, s2) => (.error e, s2)
      | (.ok out, s2) =>
        (.ok (if step.1.url.isSome then step.1 :: out else out), s2)

/-- The `while not timed_out and assets['status'] in {...}` polling loop of
`get_bundle`, with its own fuel bounding the number of iterations (the
Python loop has no bound; running out of poll fuel stands for the loop
still spinning).  Each iteration sleeps, reads the clock for the deadline
check, and force-rereads the stats via `get_assets(replace_cache=True)`. -/
def pollLoop (fuel : Nat) (cfg : WebpackConfig) (name : String)
    (reads : Nat → FileContent) (timeFn : Nat → Rat) (tmo start_time : Rat) :
    Nat → Manifest → Bool → LoaderState → Except Err (Manifest × Bool) × LoaderState
  | 0, assets, timed_out, s =>
    if ¬ timed_out ∧ (assets.status = "initialization" ∨ assets.status = "compile") then
      (.error .nonTermination, s)
    else (.ok (assets, timed_out), s)
  | Nat.succ k, assets, timed_out, s =>
    if ¬ timed_out ∧ (assets.status = "initialization" ∨ assets.status = "compile") then
      let now := timeFn s.timeCalls
      let sA : LoaderState := { s with timeCalls := s.timeCalls + 1 }
      let timed_out2 := if tmo > 0 ∧ now - tmo > start_time then true else timed_out
      match get_assets fuel cfg name reads true true sA with
      | (.error e, s1) => (.error e, s1)
      | (.ok assets2, s1) =>
        pollLoop fuel cfg name reads timeFn tmo start_time k assets2 timed_out2 s1
    else (.ok (assets, timed_out), s)

/-- Tail of `get_bundle` after polling: the `done` branch walks the chunk
list (a missing `chunks` entry, i.e. the `KeyError`, becomes
`WebpackBundleLookupError`); otherwise `raise_error_from_stats()` gets the
first chance to raise and the final `WebpackLoaderBadStatsError` with the
fixed stats-file message closes the function. -/
def get_bundle_rest (fuel : Nat) (cfg : WebpackConfig) (name : String)
    (reads : Nat → FileContent) (staticUrl : String → String)
    (bundle_name : String) (assets : Manifest) (s : LoaderState) :
    Except Err (List Asset) × LoaderState :=
  if assets.status = "done" then
    match lookupA assets.chunks bundle_name with
    | none =>
      (.error (.bundleLookup ("Cannot resolve bundle " ++ bundle_name ++ ".")), s)
    | some names => chunkLoop fuel cfg name reads staticUrl names s
  else
    match raise_error_from_stats fuel cfg name reads s with
    | (some e, s1) => (.error e, s1)
    | (none, s1) =>
      (.error (.badStats ("The stats file does not contain valid data. " ++
        "Make sure webpack-bundle-tracker plugin is enabled and try to " ++
        "run webpack again.")), s1)

/-- `WebpackLoader.get_bundle`: fetch the stats via `get_assets()` (Python
default `compiled=True`), then, when `TIMEOUT` is present, take the start
time and run the polling loop, raising `WebpackLoaderTimeoutError` when it
ends timed out; finally resolve the chunk list. -/
def get_bundle (fuel pollFuel : Nat) (cfg : WebpackConfig) (name : String)
    (reads : Nat → FileContent) (timeFn : Nat → Rat)
    (staticUrl : String → String) (bundle_name : String) (s : LoaderState) :
    Except Err (List Asset) × LoaderState :=
  match get_assets fuel cfg name reads true false s with
  | (.error e, s1) => (.error e, s1)
  | (.ok assets0, s1) =>
    match cfg.TIMEOUT with
    | none => get_bundle_rest fuel cfg name reads staticUrl bundle_name assets0 s1
    | some tmo =>
      let start_time := timeFn s1.timeCalls
      let s2 : LoaderState := { s1 with timeCalls := s1.timeCalls + 1 }
      match pollLoop fuel cfg name reads timeFn tmo start_time pollFuel assets0 false s2 with
      | (.error e, s3) => (.error e, s3)
      | (.ok (assets, timed_out), s3) =>
        if timed_out then
          (.error (.timeoutError ("Timed Out. Bundle `" ++ bundle_name ++
            "` took more than " ++ toString tmo ++ " seconds to compile.")), s3)
        else get_bundle_rest fuel cfg name reads staticUrl bundle_name assets s3

/-! ### Specification-side resolver

For the refinement claims about `get_bundle`'s `done` branch, the spec's
step-5 description is formalised as a per-chunk-name function: a chunk that
already carries a URL is kept as-is; a URL-less chunk matching an ignore
matcher is dropped; otherwise the URL is computed and attached. -/

/-- Spec-side resolution of one chunk name of a `done` manifest (step 5 of
the spec's `resolveBundle`); `none` means the chunk is dropped. -/
def resolveChunkSpec (cfg : WebpackConfig) (staticUrl : String → String)
    (m : Manifest) (n : String) : Option Asset :=
  match lookupA m.assets n with
  | none => none
  | some c =>
    if c.url.isSome then some c
    else if cfg.ignores.any (fun rgx => rgx n) then none
    else some { c with url := some (get_chunk_url cfg staticUrl c) }

/-! ### Concrete instances used by witnesses and counterexamples -/

/-- Fresh process state: the `_assets` attribute unassigned (as the staged
source leaves it forever), no reads, no clock calls yet. -/
def s0 : LoaderState := ⟨none, 0, 0⟩

/-- Static-URL capability that returns the logical path unchanged. -/
def urlId : String → String := fun p => p

/-- Static-URL capability of the spec's examples: prepend `/static/`. -/
def urlStatic : String → String := fun p => "/static/" ++ p

/-- A clock that always reads zero. -/
def timeZero : Nat → Rat := fun _ => 0

/-- A concrete configuration: cache off, polling off, no ignore patterns,
default bundle directory and stats file. -/
def baseCfg : WebpackConfig :=
  { CACHE := false
    BUNDLE_DIR_NAME := "webpack_bundles/"
    STATS_FILE := "webpack-stats.json"
    POLL_INTERVAL := (1 : Rat) / 10
    TIMEOUT := none
    IGNORE := []
    LOADER_CLASS := "webpack_loader.loader.WebpackLoader"
    ignores := [] }

/-- `baseCfg` with a positive timeout, i.e. bounded polling requested. -/
def cfgTimeout : WebpackConfig := { baseCfg with TIMEOUT := some ((1 : Rat) / 10) }

/-- Compiled form of the spec example pattern `.*\.js$`: matches names
ending in `.js`. -/
def jsMatcher : String → Bool := fun n => decide (n.data.reverse.take 3 = ['s', 'j', '.'])

/-- `baseCfg` with the `.js`-ignoring matcher installed. -/
def cfgIgnoreJs : WebpackConfig := { baseCfg with ignores := [jsMatcher] }

/-- `baseCfg` with the global cache enabled. -/
def cfgCached : WebpackConfig := { baseCfg with CACHE := true }

/-- A stats file whose content never changes. -/
def readsConst (m : Manifest) : Nat → FileContent := fun _ => .json m

/-- A permanently mid-compile manifest. -/
def mCompile : Manifest := { status := "compile" }

/-- A manifest reporting a build error with id `ModuleError`, message `boom`. -/
def mError : Manifest :=
  { status := "error", error := some "ModuleError", message := some "boom" }

/-- The spec's example `done` manifest: bundle `main` with chunks `a.js`,
`b.css`. -/
def mDone : Manifest :=
  { status := "done"
    chunks := [("main", ["a.js", "b.css"])]
    assets := [("a.js", { name := "a.js" }), ("b.css", { name := "b.css" })] }

/-- A stats file that is mid-compile on the first read and `done` from the
second read on. -/
def readsTransition : Nat → FileContent :=
  fun k => if k = 0 then .json mCompile else .json mDone

/-- A concrete override record: sets `CACHE` and `IGNORE`, omits the rest. -/
def ovW : ConfigOverride := { CACHE := some true, IGNORE := some ["a"] }

/-- A concrete `re.compile` model: the matcher tests equality with the
pattern. -/
def compW : String → (String → Bool) := fun p n => p == n

/-- True exactly when the outcome is a raised `WebpackLoaderBadStatsError`. -/
def isBadStats {α : Type} : Except Err α → Bool
  | .error (.badStats _) => true
  | _ => false

/-- True exactly when the outcome is a raised (path-naming) `IOError`. -/
def isIoError {α : Type} : Except Err α → Bool
  | .error (.ioError _) => true
  | _ => false

/-- True exactly when the outcome is a raised `WebpackLoaderTimeoutError`. -/
def isTimeout {α : Type} : Except Err α → Bool
  | .error (.timeoutError _) => true
  | _ => false

/-! ### Unfolding lemmas for `get_assets` -/

/-- With cache off, one `get_assets` call on a `done` manifest is exactly
one read. -/
theorem get_assets_nocache_done (fuel : Nat) (cfg : WebpackConfig)
    (name : String) (reads : Nat → FileContent) (compiled rc : Bool)
    (s : LoaderState) (m : Manifest)
    (hC : cfg.CACHE = false) (hr : reads s.readCount = .json m)
    (hst : m.status = "done") :
    get_assets (fuel + 1) cfg name reads compiled rc s =
      (.ok m, { s with readCount := s.readCount + 1 }) := by
  simp [get_assets, fetch_assets, load_assets, hC, hr, hst]

/-- With cache on and the `_assets` attribute unassigned — the only state
the staged program can ever be in — every `get_assets` call raises
`AttributeError` at `global_cache()`, whatever `compiled` and
`replace_cache` are, leaving the state unchanged. -/
theorem get_assets_cache_missing (fuel : Nat) (cfg : WebpackConfig)
    (name : String) (reads : Nat → FileContent) (compiled rc : Bool)
    (s : LoaderState) (hC : cfg.CACHE = true) (hnone : s.cache = none) :
    get_assets (fuel + 1) cfg name reads compiled rc s =
      (.error .attributeError, s) := by
  simp [get_assets, fetch_assets, hC, hnone]

/-! ### Claim C2 — manifest read and parse failures -/

/-- C2 counterexample: on structurally invalid JSON, `load_assets` does not
fail with the wrapped manifest-read `IOError` carrying the path; the
uncaught `json.JSONDecodeError` escapes instead, refuting the claim that a
parse failure is surfaced as the same manifest-read error. -/
theorem claim2_counterexample :
    (load_assets baseCfg (fun _ => .invalidJson) s0).1 = .error .jsonDecode ∧
    isIoError (load_assets baseCfg (fun _ => .invalidJson) s0).1 = false :=
  ⟨rfl, rfl⟩

/-- C2 amended: an unreadable stats file makes `load_assets` fail with the
re-raised `IOError` whose message contains the manifest path and the
underlying cause; structurally invalid JSON instead escapes as an uncaught
`json.JSONDecodeError` (a `ValueError`, not matched by `except IOError`).
In neither case is a default manifest substituted. -/
theorem claim2_amended_manifest_read_errors (cfg : WebpackConfig)
    (reads1 reads2 : Nat → FileContent) (s1 s2 : LoaderState) (cause : String)
    (h1 : reads1 s1.readCount = .unreadable cause)
    (h2 : reads2 s2.readCount = .invalidJson) :
    (load_assets cfg reads1 s1).1 =
      .error (.ioError ("Error reading " ++ cfg.STATS_FILE ++ ": " ++ cause ++
        ". Are you sure webpack has generated the file and the path is correct?")) ∧
    (load_assets cfg reads2 s2).1 = .error .jsonDecode := by
  constructor <;> simp [load_assets, h1, h2]

/-- C2 witness: the amended claim at a concrete configuration, a concrete
missing-file cause and a concrete invalid-JSON read. -/
theorem claim2_witness :
    (load_assets baseCfg (fun _ => .unreadable "No such file or directory") s0).1 =
      .error (.ioError ("Error reading " ++ baseCfg.STATS_FILE ++ ": " ++
        "No such file or directory" ++
        ". Are you sure webpack has generated the file and the path is correct?")) ∧
    (load_assets baseCfg (fun _ => .invalidJson) s0).1 = .error .jsonDecode :=
  claim2_amended_manifest_read_errors baseCfg
    (fun _ => .unreadable "No such file or directory") (fun _ => .invalidJson)
    s0 s0 "No such file or directory" rfl rfl

/-! ### Claim C3 — cache behaviour of `get_assets` -/

/-- C3 (code bug): the staged source never initializes the class attribute
`_assets` (loader.py:67 is a bare annotation), so with `CACHE` on every
`get_assets` call — first call, would-be hit, or `replace_cache=True`
alike — raises `AttributeError` inside `global_cache()` before any read,
store or lookup: no manifest is ever stored in or returned from a cache.
With `CACHE` off the call reads the stats file directly and leaves the
(still nonexistent) cache untouched, as the claim says. -/
theorem claim3_cache_never_initialized (fuel : Nat) (cfgT cfgF : WebpackConfig)
    (name : String) (reads : Nat → FileContent) (compiled rc : Bool)
    (s : LoaderState) (m : Manifest)
    (hT : cfgT.CACHE = true) (hF : cfgF.CACHE = false)
    (hnone : s.cache = none)
    (hr : reads s.readCount = .json m) (hm : m.status = "done") :
    get_assets (fuel + 1) cfgT name reads compiled rc s =
      (.error .attributeError, s) ∧
    get_assets (fuel + 1) cfgF name reads compiled rc s =
      (.ok m, { s with readCount := s.readCount + 1 }) :=
  ⟨get_assets_cache_missing fuel cfgT name reads compiled rc s hT hnone,
   get_assets_nocache_done fuel cfgF name reads compiled rc s m hF hr hm⟩

/-- C3 witness: from the fresh process state, the CACHE-on call crashes
with `AttributeError` while the CACHE-off call reads the manifest
directly, leaving no cache behind. -/
theorem claim3_witness :
    get_assets 1 cfgCached "DEFAULT" (readsConst mDone) true false s0 =
      (.error .attributeError, s0) ∧
    get_assets 1 baseCfg "DEFAULT" (readsConst mDone) true false s0 =
      (.ok mDone, { s0 with readCount := s0.readCount + 1 }) :=
  claim3_cache_never_initialized 0 cfgCached baseCfg "DEFAULT" (readsConst mDone)
    true false s0 mDone rfl rfl rfl rfl rfl

/-! ### Claim C5 — the spec's concrete resolution example -/

/-- C5: on a `done` manifest with chunks `main ↦ [a.js, b.css]`, both asset
records present, no ignore patterns, and the `/static/`-prepending static
resolver, `get_bundle "main"` yields exactly the two chunks with URLs
`/static/webpack_bundles/a.js` and `/static/webpack_bundles/b.css`, in that
order. -/
theorem claim5_concrete_resolution :
    (get_bundle 2 0 baseCfg "DEFAULT" (readsConst mDone) timeZero urlStatic
        "main" s0).1 =
      .ok [{ name := "a.js", url := some "/static/webpack_bundles/a.js" },
           { name := "b.css", url := some "/static/webpack_bundles/b.css" }] := by
  rfl

/-! ### Claim C9 — configuration merging -/

/-- C9: the merge is total: each field omitted from the override takes
exactly the default value, each field present overrides exactly that field,
and the compiled matcher list is always recompiled from whichever `IGNORE`
list wins the merge, never taken from a caller-supplied `ignores` entry. -/
theorem claim9_config_merge (debug : Bool) (compileRe : String → (String → Bool))
    (ov : ConfigOverride) :
    (ov.CACHE = none →
      (process_config debug compileRe ov).CACHE = (DEFAULT_CONFIG debug).CACHE) ∧
    (∀ x, ov.CACHE = some x → (process_config debug compileRe ov).CACHE = x) ∧
    (ov.BUNDLE_DIR_NAME = none →
      (process_config debug compileRe ov).BUNDLE_DIR_NAME =
        (DEFAULT_CONFIG debug).BUNDLE_DIR_NAME) ∧
    (∀ x, ov.BUNDLE_DIR_NAME = some x →
      (process_config debug compileRe ov).BUNDLE_DIR_NAME = x) ∧
    (ov.STATS_FILE = none →
      (process_config debug compileRe ov).STATS_FILE =
        (DEFAULT_CONFIG debug).STATS_FILE) ∧
    (∀ x, ov.STATS_FILE = some x →
      (process_config debug compileRe ov).STATS_FILE = x) ∧
    (ov.POLL_INTERVAL = none →
      (process_config debug compileRe ov).POLL_INTERVAL =
        (DEFAULT_CONFIG debug).POLL_INTERVAL) ∧
    (∀ x, ov.POLL_INTERVAL = some x →
      (process_config debug compileRe ov).POLL_INTERVAL = x) ∧
    (ov.TIMEOUT = none →
      (process_config debug compileRe ov).TIMEOUT = (DEFAULT_CONFIG debug).TIMEOUT) ∧
    (∀ x, ov.TIMEOUT = some x → (process_config debug compileRe ov).TIMEOUT = x) ∧
    (ov.IGNORE = none →
      (process_config debug compileRe ov).IGNORE = (DEFAULT_CONFIG debug).IGNORE) ∧
    (∀ x, ov.IGNORE = some x → (process_config debug compileRe ov).IGNORE = x) ∧
    (ov.LOADER_CLASS = none →
      (process_config debug compileRe ov).LOADER_CLASS =
        (DEFAULT_CONFIG debug).LOADER_CLASS) ∧
    (∀ x, ov.LOADER_CLASS = some x →
      (process_config debug compileRe ov).LOADER_CLASS = x) ∧
    (process_config debug compileRe ov).ignores =
      (ov.IGNORE.getD (DEFAULT_CONFIG debug).IGNORE).map compileRe ∧
    (∀ x, process_config debug compileRe { ov with ignores := x } =
      process_config debug compileRe ov) := by
  refine ⟨?_, ?_, ?_, ?_, ?_, ?_, ?_, ?_, ?_, ?_, ?_, ?_, ?_, ?_, ?_, ?_⟩ <;>
    first
      | (intro h; simp [process_config, h])
      | (intro x h; simp [process_config, h])
      | simp [process_config]

/-- C9 witness: a concrete override setting `CACHE` and `IGNORE` only:
the set fields win, an omitted field keeps its default, and the matcher
list is compiled from the override's `IGNORE`. -/
theorem claim9_witness :
    (process_config true compW ovW).CACHE = true ∧
    (process_config true compW ovW).STATS_FILE = "webpack-stats.json" ∧
    (process_config true compW ovW).ignores =
      (ovW.IGNORE.getD (DEFAULT_CONFIG true).IGNORE).map compW := by
  obtain ⟨c1, c2, c3, c4, c5, c6, c7, c8, c9, c10, c11, c12, c13, c14, c15, c16⟩ :=
    claim9_config_merge true compW ovW
  exact ⟨c2 true rfl, c5 rfl, c15⟩

/-! ### The mutual recursion between `get_assets` and `raise_error_from_stats` -/

/-- While the stats file keeps reporting a status other than `done` and the
cache is disabled, every `get_assets(compiled=True)` level re-reads that
status and enters `raise_error_from_stats`, which immediately calls
`get_assets()` with `compiled=True` again: the mutual recursion never
terminates, and the recursion limit is exhausted whatever it is.  (With the
cache enabled the call instead dies at once with `AttributeError`: see
`get_assets_cache_missing`.) -/
theorem get_assets_nondone_recursion (cfg : WebpackConfig) (name : String)
    (m : Manifest) (hC : cfg.CACHE = false) (hm : m.status ≠ "done") :
    ∀ (fuel : Nat) (rc : Bool) (s : LoaderState),
      (get_assets fuel cfg name (fun _ => .json m) true rc s).1 =
        .error .recursionError := by
  intro fuel
  induction fuel with
  | zero => intro rc s; rfl
  | succ fuel ih =>
    intro rc s
    have hrec := ih false { s with readCount := s.readCount + 1 }
    rcases hgr : get_assets fuel cfg name (fun _ => .json m) true false
        { s with readCount := s.readCount + 1 } with ⟨r, s2⟩
    rw [hgr] at hrec
    simp at hrec
    subst hrec
    simp [get_assets, fetch_assets, load_assets, hC, hm, raise_check, hgr]

/-! ### Claim C1 — non-done, non-error status with polling disabled -/

/-- C1 counterexample: with polling disabled and a permanently mid-compile
manifest, `get_bundle` does not fail with `WebpackLoaderBadStatsError`; it
exhausts the recursion limit (here fuel 5) through the `get_assets` /
`raise_error_from_stats` mutual recursion, a different error class. -/
theorem claim1_counterexample :
    (get_bundle 5 3 baseCfg "DEFAULT" (fun _ => .json mCompile) timeZero urlId
        "main" s0).1 = .error .recursionError ∧
    isBadStats (get_bundle 5 3 baseCfg "DEFAULT" (fun _ => .json mCompile)
        timeZero urlId "main" s0).1 = false :=
  ⟨rfl, rfl⟩

/-- C1 amended: with timeout absent and a manifest whose status is neither
`done` nor `error`, `get_bundle` never fails with the bad-manifest
`WebpackLoaderBadStatsError` naming bundle and status: with the cache
disabled it exhausts the recursion limit (Python's `RecursionError`) — the
initial `get_assets()` call already uses `compiled=True` and recurses
through `raise_error_from_stats` — and with the cache enabled it dies even
earlier, with `AttributeError`, because the `_assets` attribute is never
initialized. -/
theorem claim1_amended_nondone_recursion (fuel pollFuel : Nat)
    (cfg : WebpackConfig) (name : String) (m : Manifest) (timeFn : Nat → Rat)
    (staticUrl : String → String) (bundle_name : String) (s : LoaderState)
    (htimeout : cfg.TIMEOUT = none)
    (hm1 : m.status ≠ "done") (hm2 : m.status ≠ "error")
    (hnone : s.cache = none) :
    (cfg.CACHE = false →
      (get_bundle fuel pollFuel cfg name (fun _ => .json m) timeFn staticUrl
          bundle_name s).1 = .error .recursionError) ∧
    (cfg.CACHE = true →
      (get_bundle (fuel + 1) pollFuel cfg name (fun _ => .json m) timeFn staticUrl
          bundle_name s).1 = .error .attributeError) := by
  constructor
  · intro hC
    have h := get_assets_nondone_recursion cfg name m hC hm1 fuel false s
    rcases hgr : get_assets fuel cfg name (fun _ => .json m) true false s
      with ⟨r, s2⟩
    rw [hgr] at h
    simp at h
    subst h
    simp [get_bundle, hgr]
  · intro hC
    have h := get_assets_cache_missing fuel cfg name (fun _ => .json m) true
      false s hC hnone
    simp [get_bundle, h]

/-- C1 witness: the amended claim at fuel 7 and a mid-compile manifest, in
both cache modes, from the fresh process state. -/
theorem claim1_witness :
    (get_bundle 7 3 baseCfg "DEFAULT" (fun _ => .json mCompile) timeZero urlId
        "main" s0).1 = .error .recursionError ∧
    (get_bundle 8 3 cfgCached "DEFAULT" (fun _ => .json mCompile) timeZero urlId
        "main" s0).1 = .error .attributeError :=
  ⟨(claim1_amended_nondone_recursion 7 3 baseCfg "DEFAULT" mCompile timeZero
      urlId "main" s0 rfl (by decide) (by decide) rfl).1 rfl,
   (claim1_amended_nondone_recursion 7 3 cfgCached "DEFAULT" mCompile timeZero
      urlId "main" s0 rfl (by decide) (by decide) rfl).2 rfl⟩

/-! ### Claim C4 — timeout with a permanently compiling manifest -/

/-- C4 (code bug): with a positive timeout and a stats file permanently
reporting `compile`, `get_bundle` never reaches its polling loop or the
`WebpackLoaderTimeoutError` raise: the initial `get_assets()` call (made
with `compiled=True`) already diverges through `raise_error_from_stats`,
and the call dies with the recursion-limit error for every recursion
limit, never with the timeout error the claim (and the loop's own code)
describe. -/
theorem claim4_timeout_unreachable (fuel pollFuel : Nat) (s : LoaderState) :
    (get_bundle fuel pollFuel cfgTimeout "DEFAULT" (fun _ => .json mCompile)
        timeZero urlId "main" s).1 = .error .recursionError ∧
    isTimeout (get_bundle fuel pollFuel cfgTimeout "DEFAULT"
        (fun _ => .json mCompile) timeZero urlId "main" s).1 = false := by
  have h := get_assets_nondone_recursion cfgTimeout "DEFAULT" mCompile rfl
    (by decide) fuel false s
  rcases hgr : get_assets fuel cfgTimeout "DEFAULT" (fun _ => .json mCompile)
      true false s with ⟨r, s2⟩
  rw [hgr] at h
  simp at h
  subst h
  have hmain : (get_bundle fuel pollFuel cfgTimeout "DEFAULT"
      (fun _ => .json mCompile) timeZero urlId "main" s).1 =
        .error .recursionError := by
    simp [get_bundle, hgr]
  exact ⟨hmain, by rw [hmain]; rfl⟩

/-! ### Claim C7 — manifest with status `error` -/

/-- C7 (code bug): on a manifest with status `error`, id `ModuleError` and
message `boom`, `get_bundle` dies with the recursion-limit error for every
recursion limit — the `get_assets(compiled=True)` /
`raise_error_from_stats` mutual recursion again — even though the
(unreachable) classification logic of `raise_error_from_stats` builds
exactly the claimed `WebpackError` containing both strings. -/
theorem claim7_error_status_recursion (fuel pollFuel : Nat) (s : LoaderState) :
    (get_bundle fuel pollFuel baseCfg "DEFAULT" (fun _ => .json mError)
        timeZero urlId "main" s).1 = .error .recursionError ∧
    raise_error_from_stats_result mError =
      some (.webpackError "Error in webpack 'ModuleError': boom") := by
  have h := get_assets_nondone_recursion baseCfg "DEFAULT" mError rfl
    (by decide) fuel false s
  rcases hgr : get_assets fuel baseCfg "DEFAULT" (fun _ => .json mError)
      true false s with ⟨r, s2⟩
  rw [hgr] at h
  simp at h
  subst h
  exact ⟨by simp [get_bundle, hgr], rfl⟩

/-! ### Claim C10 — deadline crossed, manifest completes before the re-read -/

/-- C10 (code bug): with a positive timeout and a stats file that is
mid-compile on the first read and `done` afterwards, `get_bundle` raises
`WebpackLoaderBadStatsError` from inside the initial
`get_assets(compiled=True)` call (whose nested `raise_error_from_stats`
re-read observes `done` and so declines to raise), before the polling loop,
its deadline check or its forced re-read can run; no execution reaches the
claimed timeout-then-reread-then-`WebpackLoaderTimeoutError` path. -/
theorem claim10_badstats_after_transition (fuel pollFuel : Nat) :
    (get_bundle (fuel + 2) pollFuel cfgTimeout "DEFAULT" readsTransition
        timeZero urlId "main" s0).1 =
      .error (.badStats
        "Tried to access webpack stats \"DEFAULT\", but it has status \"compile\"") ∧
    isTimeout (get_bundle (fuel + 2) pollFuel cfgTimeout "DEFAULT" readsTransition
        timeZero urlId "main" s0).1 = false :=
  ⟨rfl, rfl⟩

/-! ### Claim C6 — ignore filtering, drop-without-error, order -/

/-- With cache off and an unchanged `done` stats file, the chunk loop of
`get_bundle` computes exactly `filterMap` of the spec-side per-chunk
resolver: URL-less chunks matching an ignore matcher are dropped without an
error, every kept chunk carries a resolved URL, and manifest order (with
duplicates) is preserved. -/
theorem chunkLoop_nocache (fuel : Nat) (cfg : WebpackConfig) (name : String)
    (m : Manifest) (staticUrl : String → String)
    (hC : cfg.CACHE = false) (hst : m.status = "done") :
    ∀ (names : List String) (s : LoaderState),
      (∀ n ∈ names, (lookupA m.assets n).isSome) →
      (chunkLoop (fuel + 1) cfg name (fun _ => .json m) staticUrl names s).1 =
        .ok (names.filterMap (resolveChunkSpec cfg staticUrl m)) := by
  intro names
  induction names with
  | nil => intro s h; rfl
  | cons n rest ih =>
    intro s h
    have hn : (lookupA m.assets n).isSome := h n (by simp)
    obtain ⟨c, hc⟩ := Option.isSome_iff_exists.mp hn
    have hrest : ∀ n' ∈ rest, (lookupA m.assets n').isSome :=
      fun n' hn' => h n' (by simp [hn'])
    have hga := get_assets_nocache_done fuel cfg name (fun _ => .json m) true false
      s m hC rfl hst
    have hihs := ih { s with readCount := s.readCount + 1 } hrest
    rcases hrec : chunkLoop (fuel + 1) cfg name (fun _ => .json m) staticUrl rest
        { s with readCount := s.readCount + 1 } with ⟨r2, s3⟩
    rw [hrec] at hihs
    simp at hihs
    subst hihs
    rcases hcu : c.url with _ | u0
    · by_cases hany : cfg.ignores.any (fun rgx => rgx n) = true
      · simp [chunkLoop, get_chunk_from_name, hga, hc, hcu, hany, setUrl, hC,
          hrec, List.filterMap_cons, resolveChunkSpec]
      · have hanyf : cfg.ignores.any (fun rgx => rgx n) = false := by simpa using hany
        simp [chunkLoop, get_chunk_from_name, hga, hc, hcu, hanyf, setUrl, hC,
          hrec, List.filterMap_cons, resolveChunkSpec]
    · simp [chunkLoop, get_chunk_from_name, hga, hc, hcu, setUrl, hC,
        hrec, List.filterMap_cons, resolveChunkSpec]

/-- C6: for a `done` manifest (cache off, polling off, unchanged stats
file) whose bundle entry lists `names`, each named asset being present,
`get_bundle` succeeds and returns exactly `filterMap` of the spec-side
resolver over `names`: a chunk with no memoized URL whose name matches an
ignore matcher is dropped (no URL, no error), every chunk in the output
carries a resolved URL, and the manifest-declared order, including
duplicates, is preserved. -/
theorem claim6_ignore_filtering (fuel pollFuel : Nat) (cfg : WebpackConfig)
    (name : String) (m : Manifest) (timeFn : Nat → Rat)
    (staticUrl : String → String) (bundle_name : String) (s : LoaderState)
    (names : List String)
    (hC : cfg.CACHE = false) (hT : cfg.TIMEOUT = none)
    (hst : m.status = "done")
    (hchunks : lookupA m.chunks bundle_name = some names)
    (hassets : ∀ n ∈ names, (lookupA m.assets n).isSome) :
    (get_bundle (fuel + 1) pollFuel cfg name (fun _ => .json m) timeFn staticUrl
        bundle_name s).1 =
      .ok (names.filterMap (resolveChunkSpec cfg staticUrl m)) := by
  have hga := get_assets_nocache_done fuel cfg name (fun _ => .json m) true false
    s m hC rfl hst
  have hloop := chunkLoop_nocache fuel cfg name m staticUrl hC hst names
    { s with readCount := s.readCount + 1 } hassets
  rcases hrec : chunkLoop (fuel + 1) cfg name (fun _ => .json m) staticUrl names
      { s with readCount := s.readCount + 1 } with ⟨r2, s3⟩
  rw [hrec] at hloop
  simp at hloop
  subst hloop
  simp [get_bundle, hga, hT, get_bundle_rest, hst, hchunks, hrec]

/-- C6 witness: the spec's example with ignore pattern `.*\.js$`: `a.js` is
dropped, only `b.css` (with its resolved URL) remains. -/
theorem claim6_witness :
    (get_bundle 1 0 cfgIgnoreJs "DEFAULT" (fun _ => .json mDone) timeZero
        urlStatic "main" s0).1 =
      .ok (["a.js", "b.css"].filterMap
        (resolveChunkSpec cfgIgnoreJs urlStatic mDone)) ∧
    ["a.js", "b.css"].filterMap (resolveChunkSpec cfgIgnoreJs urlStatic mDone) =
      [{ name := "b.css", url := some "/static/webpack_bundles/b.css" }] :=
  ⟨claim6_ignore_filtering 0 0 cfgIgnoreJs "DEFAULT" mDone timeZero urlStatic
    "main" s0 ["a.js", "b.css"] rfl rfl rfl rfl (by decide), by decide⟩

/-! ### Claim C8 — idempotence of resolution under memoization -/

/-- C8 (code bug): the memoized second resolution the claim describes
requires `CACHE` on, but the staged source never initializes the `_assets`
attribute, so both resolutions raise `AttributeError` inside
`global_cache()` before reading anything: the first `get_bundle` returns
the crash with the state unchanged, and the second, started from that
state, crashes identically.  No URL list, memoized or otherwise, is ever
produced. -/
theorem claim8_cache_attribute_error (fuel pollFuel pollFuel2 : Nat)
    (cfg : WebpackConfig) (name : String) (reads reads2 : Nat → FileContent)
    (timeFn timeFn2 : Nat → Rat) (staticUrl : String → String)
    (bundle_name : String) (s : LoaderState)
    (hC : cfg.CACHE = true) (hnone : s.cache = none) :
    get_bundle (fuel + 1) pollFuel cfg name reads timeFn staticUrl bundle_name s =
      (.error .attributeError, s) ∧
    (get_bundle (fuel + 1) pollFuel2 cfg name reads2 timeFn2 staticUrl bundle_name
        (get_bundle (fuel + 1) pollFuel cfg name reads timeFn staticUrl
          bundle_name s).2).1 = .error .attributeError := by
  have h1 := get_assets_cache_missing fuel cfg name reads true false s hC hnone
  have h2 := get_assets_cache_missing fuel cfg name reads2 true false s hC hnone
  have hb1 : get_bundle (fuel + 1) pollFuel cfg name reads timeFn staticUrl
      bundle_name s = (.error .attributeError, s) := by
    simp [get_bundle, h1]
  refine ⟨hb1, ?_⟩
  rw [hb1]
  simp [get_bundle, h2]

/-- C8 witness: the cached configuration resolved twice from process start:
both resolutions crash with `AttributeError`. -/
theorem claim8_witness :
    get_bundle 1 0 cfgCached "DEFAULT" (readsConst mDone) timeZero urlStatic
        "main" s0 = (.error .attributeError, s0) ∧
    (get_bundle 1 0 cfgCached "DEFAULT" (readsConst mDone) timeZero urlStatic
        "main" (get_bundle 1 0 cfgCached "DEFAULT" (readsConst mDone) timeZero
          urlStatic "main" s0).2).1 = .error .attributeError :=
  claim8_cache_attribute_error 0 0 0 cfgCached "DEFAULT" (readsConst mDone)
    (readsConst mDone) timeZero timeZero urlStatic "main" s0 rfl rfl
